import Mathlib

/-!
Shallow embedding of the GRC agent's core tool logic, translated from
`python/grc_agent/mcp/grc_tools.py`, `python/grc_agent/oscal_convert.py`
and `python/grc_agent/data/framework_data.py` / `data_loader.py`.

Python strings are modelled as Lean `String` (lists of characters);
`str.strip`, `str.lower` and the regex character classes are modelled over
ASCII, which covers every literal the code compares against.  Framework
JSON documents (which live outside the Python sources, in `data/*.json`)
are modelled as an environment `env : String → FrameworkData` mapping a
file name to its parsed contents; `load_json` is a pure read of that
environment (its I/O effect is modelled separately for the caching claim).
-/

namespace GrcAgent

/-- Characters of Python `str.strip()`: whitespace removed from both ends. -/
def trim_chars (cs : List Char) : List Char :=
  ((cs.dropWhile Char.isWhitespace).reverse.dropWhile Char.isWhitespace).reverse

/-- Model of `_normalize` in `grc_tools.py`: `text.strip().lower()`. -/
def normalize (s : String) : String :=
  ⟨(trim_chars s.data).map Char.toLower⟩

/-- Model of Python `str.strip()`. -/
def strip (s : String) : String :=
  ⟨trim_chars s.data⟩

/-- `isPrefixList n h` is true when `n` is a leading segment of `h`. -/
def isPrefixList (n h : List Char) : Bool :=
  match n, h with
  | [], _ => true
  | _ :: _, [] => false
  | a :: ns, b :: hs => a == b && isPrefixList ns hs

/-- Model of Python `str.startswith`. -/
def starts_with (s pat : String) : Bool :=
  isPrefixList pat.data s.data

/-- `has_substr hay needle` is true when `needle` occurs contiguously inside
`hay`; models Python's `needle in hay` for strings. -/
def has_substr (hay needle : List Char) : Bool :=
  match hay with
  | [] => needle.isEmpty
  | c :: t => isPrefixList needle (c :: t) || has_substr t needle

/-- Python `needle in hay` on strings. -/
def str_has (hay needle : String) : Bool :=
  has_substr hay.data needle.data

/-- Model of Python `s.replace(pat, "")` for a non-empty literal `pat`:
delete every non-overlapping occurrence, scanning left to right.  (The
empty-pattern case never arises: the code only removes the literal
`"Responsible Role:"`.) -/
def remove_all (pat : List Char) : List Char → List Char
  | [] => []
  | c :: t =>
    if isPrefixList pat (c :: t) then remove_all pat (t.drop (pat.length - 1))
    else c :: remove_all pat t
  termination_by s => s.length
  decreasing_by
  · simp [List.length_drop]
    omega
  · simp

-- ---------------------------------------------------------------------------
-- Data model: one record shape covering flat controls, CMMC practices and
-- AI-RMF categories (Python dicts; absent "name" is `none`, absent list
-- fields are `[]`, matching `.get` defaults in `control_lookup`).
-- ---------------------------------------------------------------------------

structure Control where
  id : String
  name : Option String
  requirements : List String
  assessment_objectives : List String
  level : Option String
  function : Option String
  deriving DecidableEq

structure CmmcLevel where
  level : String
  practices : List Control
  deriving DecidableEq

structure AiFunction where
  id : String
  categories : List Control
  deriving DecidableEq

structure Baseline where
  baseline : String
  description : String
  deriving DecidableEq

/-- Parsed contents of one framework JSON file.  A shape's unused sections
are empty lists (iterating an absent key yields nothing, like `.get(...)`
returning `None`/`[]` in the Python branches). -/
structure FrameworkData where
  controls : List Control
  levels : List CmmcLevel
  functions : List AiFunction
  baselines : List Baseline
  deriving DecidableEq

/-- `FRAMEWORK_FILES` from `grc_tools.py`. -/
def framework_files : List (String × String) :=
  [("NIST 800-53", "nist-800-53-r5.json"),
   ("NIST 800-171", "nist-800-171-r2.json"),
   ("CMMC", "cmmc-2.0-practices.json"),
   ("NIST AI RMF", "nist-ai-rmf.json"),
   ("ISO 42001", "iso-42001.json"),
   ("EU AI Act", "eu-ai-act.json"),
   ("ISO 27001", "iso-27001.json"),
   ("SOC 2", "soc2.json"),
   ("CSA CCM", "csa-ccm.json"),
   ("NIST Privacy Framework", "nist-privacy-framework.json"),
   ("GDPR", "gdpr.json"),
   ("CCPA", "ccpa.json"),
   ("OECD AI Principles", "oecd-ai-principles.json"),
   ("White House EO 14110", "white-house-eo-14110.json"),
   ("DFARS 252.204-7012", "dfars-252.204-7012.json"),
   ("FISMA", "fisma.json"),
   ("FedRAMP", "fedramp-baselines.json")]

/-- `FRAMEWORK_FILES.get(framework)`. -/
def framework_file (framework : String) : Option String :=
  (framework_files.find? (fun p => p.1 == framework)).map Prod.snd

/-- CMMC branch of `_find_control`: first practice of the first level whose
normalized id equals the target, annotated with its level
(`{**practice, "level": level.get("level")}`). -/
def find_in_levels (target : String) : List CmmcLevel → Option Control
  | [] => none
  | l :: ls =>
    match l.practices.find? (fun p => normalize p.id == target) with
    | some p => some ⟨p.id, p.name, p.requirements, p.assessment_objectives,
                      some l.level, p.function⟩
    | none => find_in_levels target ls

/-- NIST AI RMF branch of `_find_control`: first category of the first
function whose normalized id equals the target, annotated with the
function's id (`{**category, "function": func.get("id")}`). -/
def find_in_functions (target : String) : List AiFunction → Option Control
  | [] => none
  | f :: fs =>
    match f.categories.find? (fun c => normalize c.id == target) with
    | some c => some ⟨c.id, c.name, c.requirements, c.assessment_objectives,
                      c.level, some f.id⟩
    | none => find_in_functions target fs

/-- FedRAMP branch of `_find_control`: a baseline whose normalized name
equals the target, synthesized into a single-requirement control. -/
def find_in_baselines (target : String) (bs : List Baseline) : Option Control :=
  (bs.find? (fun b => normalize b.baseline == target)).map
    (fun b => ⟨b.baseline, some ("FedRAMP " ++ b.baseline ++ " baseline"),
               [b.description], [], none, none⟩)

/-- Body of `_find_control` after the file is loaded: flat `controls` array
first, then the framework-specific nested shapes, first match wins. -/
def find_in_data (data : FrameworkData) (framework target : String) : Option Control :=
  (data.controls.find? (fun c => normalize c.id == target)) <|>
  (if framework == "CMMC" then find_in_levels target data.levels else none) <|>
  (if framework == "NIST AI RMF" then find_in_functions target data.functions else none) <|>
  (if framework == "FedRAMP" then find_in_baselines target data.baselines else none)

/-- `_find_control(framework, control_id)`: resolve the file name, load its
data from the environment, and search with the normalized id. -/
def find_control (env : String → FrameworkData) (framework control_id : String) :
    Option Control :=
  match framework_file framework with
  | none => none
  | some file_name => find_in_data (env file_name) framework (normalize control_id)

/-- Return shape of `control_lookup`. -/
structure LookupResult where
  framework : String
  control_id : String
  control_name : Option String
  requirements : List String
  assessment_objectives : List String
  deriving DecidableEq

/-- `control_lookup(args)`: a found control's own fields, or the not-found
value (`control_name = None`, empty lists) — never an exception. -/
def control_lookup (env : String → FrameworkData) (framework control_id : String) :
    LookupResult :=
  match find_control env framework control_id with
  | none => ⟨framework, control_id, none, [], []⟩
  | some control =>
      ⟨framework, control.id, control.name, control.requirements,
       control.assessment_objectives⟩

/-- Return shape of `gap_analyzer`. -/
structure GapResult where
  control_id : String
  requirements : List String
  implementation_description : String
  heuristic_gaps : List String
  deriving DecidableEq

/-- `gap_analyzer(args)`: heuristic gaps are the requirement strings whose
normalized text does not occur as a substring of the normalized
implementation description. -/
def gap_analyzer (env : String → FrameworkData)
    (framework control_id implementation_description : String) : GapResult :=
  match find_control env framework control_id with
  | none =>
      ⟨control_id, [], implementation_description,
       ["Control not found in data set."]⟩
  | some control =>
      let description := normalize implementation_description
      let requirements := control.requirements
      ⟨control_id, requirements, implementation_description,
       requirements.filter (fun req => !(str_has description (normalize req)))⟩

-- ---------------------------------------------------------------------------
-- finding_generator.  Dates are modelled as day numbers (a UTC datetime's
-- date component); `now` is the current day, advancing by `timedelta(days=d)`
-- is `now + d`.  `rand` models the draw of `random.randint(100, 999)`.
-- `finding_id`'s `%Y%m%d` stamp is abstracted to the day number.
-- ---------------------------------------------------------------------------

structure Milestone where
  description : String
  due_date : Nat
  deriving DecidableEq

structure PoamEntry where
  weakness_description : String
  point_of_contact : String
  resources_required : String
  scheduled_completion_date : Nat
  milestones : List Milestone
  source : String
  status : String
  deviation_request : Bool
  original_detection_date : Nat
  vendor_dependency : Bool
  false_positive : Bool
  deriving DecidableEq

structure FindingResult where
  finding_id : String
  poam_required : Bool
  poam_entry : PoamEntry
  remediation_steps : List String
  deriving DecidableEq

/-- `{"critical": 30, "high": 90, "moderate": 180, "low": 365}.get(risk, 180)`. -/
def remediation_days_of (risk : String) : Nat :=
  if risk == "critical" then 30
  else if risk == "high" then 90
  else if risk == "moderate" then 180
  else if risk == "low" then 365
  else 180

/-- `finding_generator(args)`.  `gap_summary` and `risk` are the caller's
inputs (`args.get("risk_level", "moderate")` makes a missing risk level
`"moderate"` before this function is reached); `now` and `rand` model the
ambient clock and random draw read inside the function. -/
def finding_generator (gap_summary risk : String) (now rand : Nat) : FindingResult :=
  let remediation_days := remediation_days_of risk
  let completion_date := now + remediation_days
  let midpoint_date := now + remediation_days / 2
  ⟨"F-" ++ toString now ++ "-" ++ toString rand,
   true,
   ⟨gap_summary,
    "ISSO — to be assigned",
    "Engineering and security team remediation effort",
    completion_date,
    [⟨"Develop remediation plan and assign resources", midpoint_date⟩,
     ⟨"Implement remediation and validate effectiveness", completion_date⟩],
    "assessment",
    "open",
    false,
    now,
    false,
    false⟩,
   [gap_summary,
    "Remediation target: " ++ toString completion_date ++ " (" ++
      toString remediation_days ++ " days based on " ++ risk ++ " risk level)."]⟩

-- ---------------------------------------------------------------------------
-- cmmc_level_checker
-- ---------------------------------------------------------------------------

structure Implementation where
  control_id : String
  status : String
  deriving DecidableEq

structure LevelCheck where
  level : String
  gaps_to_next_level : Nat
  deriving DecidableEq

/-- Boolean membership in a list of strings; models Python set membership
(the set is only ever queried with `in`, so a list of the same elements is
an equivalent model). -/
def str_mem (x : String) (l : List String) : Bool :=
  l.any (fun y => y == x)

/-- The `implemented` set of `cmmc_level_checker`: normalized ids of the
implementations whose normalized status is implemented or satisfied. -/
def implemented_set (impls : List Implementation) : List String :=
  (impls.filter (fun i =>
      normalize i.status == "implemented" || normalize i.status == "satisfied")).map
    (fun i => normalize i.control_id)

/-- The `missing` list computed for one level: practices whose normalized id
is not in the implemented set. -/
def missing_practices (l : CmmcLevel) (impl : List String) : List Control :=
  l.practices.filter (fun p => !(str_mem (normalize p.id) impl))

/-- The level walk of `cmmc_level_checker`: `ach` carries the last achieved
level name (initially `"None"`); the walk stops at the first level with a
missing practice, reporting how many practices are missing there. -/
def cmmc_go (impl : List String) : List CmmcLevel → String → String × Nat
  | [], ach => (ach, 0)
  | l :: ls, ach =>
    if (missing_practices l impl).isEmpty then cmmc_go impl ls l.level
    else (ach, (missing_practices l impl).length)

/-- `cmmc_level_checker(args)`; reads `FRAMEWORK_FILES["CMMC"]`. -/
def cmmc_level_checker (env : String → FrameworkData)
    (impls : List Implementation) : LevelCheck :=
  let data := env "cmmc-2.0-practices.json"
  let r := cmmc_go (implemented_set impls) data.levels "None"
  ⟨r.1, r.2⟩

/-- Number of leading levels fully satisfied by `impl` (the walk achieves
exactly this prefix of the declared level order). -/
def achieved_count (impl : List String) : List CmmcLevel → Nat
  | [] => 0
  | l :: ls =>
    if (missing_practices l impl).isEmpty then achieved_count impl ls + 1
    else 0

/-- Name of the level reached after achieving the first `n` declared levels,
starting from the default name `dflt` (`"None"` at the top call). -/
def level_name (dflt : String) : List CmmcLevel → Nat → String
  | _, 0 => dflt
  | [], _ + 1 => dflt
  | l :: ls, n + 1 => level_name l.level ls n

/-- Missing-practice count at the first unachieved level (0 when every
declared level is achieved). -/
def gaps_at (impl : List String) : List CmmcLevel → Nat
  | [] => 0
  | l :: ls =>
    if (missing_practices l impl).isEmpty then gaps_at impl ls
    else (missing_practices l impl).length

-- ---------------------------------------------------------------------------
-- ai_risk_classifier
-- ---------------------------------------------------------------------------

structure RiskClass where
  eu_ai_act_risk_tier : String
  nist_ai_rmf_function : String
  deriving DecidableEq

/-- `ai_risk_classifier(args)`: ordered keyword precedence over the
normalized system description. -/
def ai_risk_classifier (system_description : String) : RiskClass :=
  let text := normalize system_description
  if str_has text "social scoring" || str_has text "subliminal" then
    ⟨"unacceptable", "govern"⟩
  else if str_has text "biometric" || str_has text "critical infrastructure" ||
      str_has text "employment" || str_has text "law enforcement" then
    ⟨"high", "map"⟩
  else if str_has text "chatbot" || str_has text "recommendation" then
    ⟨"limited", "measure"⟩
  else ⟨"minimal", "manage"⟩

-- ---------------------------------------------------------------------------
-- baseline_selector
-- ---------------------------------------------------------------------------

structure BaselineArgs where
  confidentiality_impact : String
  integrity_impact : String
  availability_impact : String
  data_types : List String
  mission : String
  regulatory_requirements : List String
  deriving DecidableEq

structure Fips199 where
  confidentiality : String
  integrity : String
  availability : String
  overall : String
  deriving DecidableEq

structure BaselineResult where
  fedramp_baseline : String
  dod_impact_level : Option String
  fips_199_categorization : Fips199
  rationale : List String
  deriving DecidableEq

/-- `impact_rank.get(x, 1)`. -/
def impact_rank (s : String) : Nat :=
  if s == "low" then 1 else if s == "moderate" then 2 else if s == "high" then 3
  else 1

/-- `rank_to_level.get(n, "low")` (the table covers ranks 1..3). -/
def rank_to_level (n : Nat) : String :=
  if n == 1 then "low" else if n == 2 then "moderate" else if n == 3 then "high"
  else "low"

/-- `baseline_map.get(overall, "FedRAMP Low")`. -/
def baseline_map (s : String) : String :=
  if s == "low" then "FedRAMP Low"
  else if s == "moderate" then "FedRAMP Moderate"
  else if s == "high" then "FedRAMP High"
  else "FedRAMP Low"

/-- The DoD Impact Level cascade of `baseline_selector`. -/
def dod_il_of (data_types : List String) (mission_text overall : String) :
    Option String :=
  if data_types.any (fun t => str_has t "classified" || str_has t "secret") then
    some "IL6"
  else if data_types.any (fun t => str_has t "cui") &&
      (str_has mission_text "mission critical" ||
       str_has mission_text "national security") then
    some "IL5"
  else if data_types.any (fun t => str_has t "cui") then some "IL4"
  else if data_types.any (fun t => str_has t "public") || overall == "low" then
    some "IL2"
  else none

/-- `", ".join(xs)`. -/
def comma_join (xs : List String) : String :=
  String.intercalate ", " xs

/-- `baseline_selector(args)`: FIPS-199 high-water mark, FedRAMP baseline,
DoD Impact Level cascade, and the ordered rationale audit trail. -/
def baseline_selector (args : BaselineArgs) : BaselineResult :=
  let c_rank := impact_rank args.confidentiality_impact
  let i_rank := impact_rank args.integrity_impact
  let a_rank := impact_rank args.availability_impact
  let overall_rank := max (max c_rank i_rank) a_rank
  let overall := rank_to_level overall_rank
  let fedramp_baseline := baseline_map overall
  let data_types := args.data_types.map normalize
  let mission_text := normalize args.mission
  let dod_il := dod_il_of data_types mission_text overall
  let rationale :=
    ["FIPS 199 categorization: C=" ++ args.confidentiality_impact ++
       ", I=" ++ args.integrity_impact ++ ", A=" ++ args.availability_impact,
     "High-water mark: " ++ overall ++
       " (highest of C/I/A determines overall impact)",
     "FedRAMP baseline: " ++ fedramp_baseline] ++
    (match dod_il with
     | none => []
     | some il =>
       ["DoD Impact Level: " ++ il] ++
       (if il == "IL5" || il == "IL6" then
          ["Note: IL5/IL6 require DISA Cloud Computing SRG overlays beyond FedRAMP controls"]
        else [])) ++
    ["Data types: " ++ comma_join args.data_types,
     "Mission: " ++ args.mission] ++
    (if args.regulatory_requirements.isEmpty then []
     else ["Regulatory requirements: " ++ comma_join args.regulatory_requirements])
  ⟨fedramp_baseline, dod_il,
   ⟨args.confidentiality_impact, args.integrity_impact,
    args.availability_impact, overall⟩,
   rationale⟩

/-- The spec's ordering low < moderate < high, used to state the high-water
mark property independently of the code's rank tables. -/
def spec_rank (s : String) : Nat :=
  if s == "low" then 0 else if s == "moderate" then 1 else 2

-- ---------------------------------------------------------------------------
-- Load layer (`data_loader.load_json`, `framework_data.load_framework_data`).
-- The state counts underlying file reads, so the presence or absence of
-- caching is observable in the model.
-- ---------------------------------------------------------------------------

/-- `load_json(path)`: reads the file (one underlying load, counted in the
state) and returns its parsed contents from the environment. -/
def load_json (env : String → FrameworkData) (path : String) :
    StateM Nat FrameworkData :=
  fun n => (env path, n + 1)

/-- `load_framework_data(file_name)`: delegates directly to `load_json`;
there is no cache in front of it. -/
def load_framework_data (env : String → FrameworkData) (file_name : String) :
    StateM Nat FrameworkData :=
  load_json env file_name

/-- `k` sequential calls to `load_framework_data` for the same file. -/
def repeat_loads (env : String → FrameworkData) (file_name : String) :
    Nat → StateM Nat Unit
  | 0 => pure ()
  | k + 1 => load_framework_data env file_name >>= fun _ => repeat_loads env file_name k

-- ---------------------------------------------------------------------------
-- Document extractor (`oscal_convert.py`).  A table is its ordered list of
-- cell texts (`_get_cell_texts`).  The header regexes are modelled
-- character-exactly over ASCII (`[A-Z]`, `\d`, `\s` as in `re` on ASCII
-- text); `re.match` anchors at the start and leaves the tail free.
-- ---------------------------------------------------------------------------

/-- Longest leading run of digits (`\d+`, greedy). -/
def span_digits (cs : List Char) : List Char × List Char :=
  match cs with
  | [] => ([], [])
  | c :: rest =>
    if c.isDigit then
      let (d, r) := span_digits rest
      (c :: d, r)
    else ([], c :: rest)

/-- The shared group `([A-Z]{2}-\d+(?:\(\d+\))?)` of both header regexes:
two capital letters, a dash, digits, and an optional parenthesized
enhancement number.  Returns the matched id together with the remaining
input (the optional group matches empty when the parenthesized form is not
fully present, exactly as the regex backtracks). -/
def parse_id_core (cs : List Char) : Option (List Char × List Char) :=
  match cs with
  | a :: b :: d :: rest =>
    if a.isUpper && b.isUpper && d == '-' then
      let (ds, r1) := span_digits rest
      if ds.isEmpty then none
      else
        match r1 with
        | '(' :: r2 =>
          let (ds2, r3) := span_digits r2
          (match ds2, r3 with
           | e :: es, ')' :: r4 =>
             some ([a, b, '-'] ++ ds ++ ['('] ++ (e :: es) ++ [')'], r4)
           | _, _ => some ([a, b, '-'] ++ ds, '(' :: r2))
        | _ => some ([a, b, '-'] ++ ds, r1)
    else none
  | _ => none

/-- `re.match` of `^<id>\s+<lit>` against `s`: id group, one or more
whitespace characters, then the literal as a prefix of the rest. -/
def header_id (lit : List Char) (s : String) : Option String :=
  match parse_id_core s.data with
  | none => none
  | some (idc, rest) =>
    if (rest.takeWhile Char.isWhitespace).isEmpty then none
    else if isPrefixList lit (rest.dropWhile Char.isWhitespace) then some ⟨idc⟩
    else none

/-- `_CIS_HEADER_RE.match`: the control id of a summary-table header. -/
def cis_header (s : String) : Option String :=
  header_id "Control Summary Information".data s

/-- `_STATEMENT_HEADER_RE.match`: the control id of a statement-table header. -/
def statement_header (s : String) : Option String :=
  header_id "What is the solution".data s

/-- Lazy token of `^Parameter\s+(\S+?):`: the shortest non-empty run of
non-whitespace characters followed immediately by a colon; returns the run
and the input after the colon. -/
def lazy_token (cs : List Char) : Option (List Char × List Char) :=
  match cs with
  | [] => none
  | c :: rest =>
    if c.isWhitespace then none
    else
      match rest with
      | ':' :: r2 => some ([c], r2)
      | _ =>
        match lazy_token rest with
        | some (nm, r2) => some (c :: nm, r2)
        | none => none

/-- `re.match(r"^Parameter\s+(\S+?):\s*(.*)", trimmed)`: parameter name and
value (the `.` of `(.*)` stops at a newline). -/
def parse_param (cs : List Char) : Option (String × String) :=
  if isPrefixList "Parameter".data cs then
    let rest := cs.drop 9
    if (rest.takeWhile Char.isWhitespace).isEmpty then none
    else
      match lazy_token (rest.dropWhile Char.isWhitespace) with
      | none => none
      | some (nm, r) =>
        some (⟨nm⟩, ⟨(r.dropWhile Char.isWhitespace).takeWhile (fun c => c != '\n')⟩)
  else none

/-- Insert-or-overwrite for the `params` dict (Python dict semantics:
overwriting keeps the key's original position, a new key appends). -/
def upsert (m : List (String × String)) (k v : String) : List (String × String) :=
  if m.any (fun p => p.1 == k) then
    m.map (fun p => if p.1 == k then (k, v) else p)
  else m ++ [(k, v)]

/-- Same dict model for the `parts` mapping, keyed by the part letter. -/
def upsert_char (m : List (Char × String)) (k : Char) (v : String) :
    List (Char × String) :=
  if m.any (fun p => p.1 == k) then
    m.map (fun p => if p.1 == k then (k, v) else p)
  else m ++ [(k, v)]

/-- Accumulated fields of `_parse_cis_table`. -/
structure CisInfo where
  control_id : String
  status : String
  origination : String
  roles : String
  params : List (String × String)
  deriving DecidableEq

/-- One iteration of the cell loop in `_parse_cis_table`: the
`startswith`-guarded elif chain over the stripped cell text. -/
def apply_cis_cell (acc : CisInfo) (text : String) : CisInfo :=
  let trimmed := strip text
  if starts_with trimmed "Responsible Role:" then
    ⟨acc.control_id, acc.status, acc.origination,
     strip ⟨remove_all "Responsible Role:".data trimmed.data⟩, acc.params⟩
  else if starts_with trimmed "Implementation Status" then
    ⟨acc.control_id, trimmed, acc.origination, acc.roles, acc.params⟩
  else if starts_with trimmed "Control Origination" then
    ⟨acc.control_id, acc.status, trimmed, acc.roles, acc.params⟩
  else if starts_with trimmed "Parameter " then
    match parse_param trimmed.data with
    | some (k, v) =>
      ⟨acc.control_id, acc.status, acc.origination, acc.roles,
       upsert acc.params k v⟩
    | none => acc
  else acc

/-- `_parse_cis_table(cell_texts)`: `None` unless the first cell matches the
summary header; otherwise fold the field scan over every cell, with the
lowercased header id as `control_id`. -/
def parse_cis_table (cells : List String) : Option CisInfo :=
  match cells with
  | [] => none
  | c0 :: _ =>
    match cis_header c0 with
    | none => none
    | some cid =>
      some (cells.foldl apply_cis_cell
        ⟨⟨cid.data.map Char.toLower⟩, "", "", "", []⟩)

/-- `_PART_LABEL_RE.match`: case-insensitive `^Part\s+\(?([a-z])\)?:`;
returns the part letter and the input after the colon (the span the
anchored `re.sub` removes). -/
def part_label (cs : List Char) : Option (Char × List Char) :=
  match cs with
  | p :: a :: r :: t :: rest =>
    if p.toLower == 'p' && a.toLower == 'a' && r.toLower == 'r' &&
        t.toLower == 't' then
      if (rest.takeWhile Char.isWhitespace).isEmpty then none
      else
        match rest.dropWhile Char.isWhitespace with
        | '(' :: c :: tail =>
          if c.isAlpha then
            match tail with
            | ')' :: ':' :: r2 => some (c, r2)
            | ':' :: r2 => some (c, r2)
            | _ => none
          else none
        | c :: tail =>
          if c.isAlpha then
            match tail with
            | ')' :: ':' :: r2 => some (c, r2)
            | ':' :: r2 => some (c, r2)
            | _ => none
          else none
        | [] => none
    else none
  | _ => none

/-- One iteration of the cell loop in `_parse_statement_table`: skip empty
cells; a part-labelled line is stripped of its label and keyed into the
parts dict; every non-empty line joins the narrative. -/
def apply_statement_cell (acc : List (Char × String) × List String)
    (text : String) : List (Char × String) × List String :=
  let t := strip text
  if t.data.isEmpty then acc
  else
    match part_label t.data with
    | some (letter, rest) =>
      (upsert_char acc.1 letter.toLower (strip ⟨rest⟩), acc.2 ++ [t])
    | none => (acc.1, acc.2 ++ [t])

/-- `_parse_statement_table(cell_texts)`: fold over the cells after the
header row; narrative is the newline join of the kept lines. -/
def parse_statement_table (cells : List String) :
    List (Char × String) × String :=
  let r := (cells.drop 1).foldl apply_statement_cell ([], [])
  (r.1, String.intercalate "\n" r.2)

/-- The pairing peek of the scan: `next_texts and
_STATEMENT_HEADER_RE.match(next_texts[0])`. -/
def is_statement_table (cells : List String) : Bool :=
  match cells with
  | [] => false
  | c0 :: _ => (statement_header c0).isSome

/-- Extracted per-control record (`ExtractedControl`). -/
structure ExtractedControl where
  control_id : String
  status : String
  origination : String
  roles : String
  params : List (String × String)
  parts : List (Char × String)
  raw_narrative : String
  deriving DecidableEq

/-- Record assembly at the end of each loop iteration. -/
def mk_record (cis : CisInfo) (parts : List (Char × String))
    (raw_narrative : String) : ExtractedControl :=
  ⟨cis.control_id, cis.status, cis.origination, cis.roles, cis.params,
   parts, raw_narrative⟩

/-- The table scan of `_extract_docx_controls`: left to right; a table that
is not a summary table is skipped; after a summary match the immediately
following table is consumed as the statement table exactly when its first
cell matches the statement header, otherwise the scan resumes at it. -/
def extract_controls : List (List String) → List ExtractedControl
  | [] => []
  | [t] =>
    match parse_cis_table t with
    | none => []
    | some cis => [mk_record cis [] ""]
  | t :: next :: rest =>
    match parse_cis_table t with
    | none => extract_controls (next :: rest)
    | some cis =>
      if is_statement_table next then
        mk_record cis (parse_statement_table next).1
            (parse_statement_table next).2 :: extract_controls rest
      else
        mk_record cis [] "" :: extract_controls (next :: rest)

-- ---------------------------------------------------------------------------
-- Fixture data used by the witness theorems (a small well-formed framework
-- environment; the repository's framework JSON files live outside src).
-- ---------------------------------------------------------------------------

def sample_ac1 : Control :=
  ⟨"AC-1", some "Access Control Policy and Procedures",
   ["least privilege", "audit logging"], [], none, none⟩

def sample_env : String → FrameworkData := fun f =>
  if f == "nist-800-53-r5.json" then ⟨[sample_ac1], [], [], []⟩
  else ⟨[], [], [], []⟩

def wit_practice (i : String) : Control :=
  ⟨i, none, [], [], none, none⟩

def wit_levels : List CmmcLevel :=
  [⟨"Level 1", [wit_practice "AC.L1-3.1.1", wit_practice "AC.L1-3.1.2"]⟩,
   ⟨"Level 2", [wit_practice "AC.L2-3.1.3"]⟩]

def wit_env : String → FrameworkData := fun _ => ⟨[], wit_levels, [], []⟩

def wit_impls : List Implementation := [⟨"AC.L1-3.1.1", "implemented"⟩]

def wit_item : Implementation := ⟨"AC.L2-3.1.3", "implemented"⟩

-- ---------------------------------------------------------------------------
-- Theorems
-- ---------------------------------------------------------------------------

/-- Claim C1: control lookup is case/whitespace-insensitive — for any
framework, a lookup id whose trimmed, lowercased form agrees with a valid
id's returns the identical Control record the canonical lookup returns. -/
theorem find_control_case_ws_insensitive (env : String → FrameworkData)
    (framework variant canonical : String) (ctrl : Control)
    (h1 : normalize variant = normalize canonical)
    (h2 : find_control env framework canonical = some ctrl) :
    find_control env framework variant = some ctrl := by
  unfold find_control at h2 ⊢
  rw [h1]
  exact h2

/-- Witness for C1 at a concrete environment: the padded, mixed-case
variant resolves to the very record the canonical id resolves to. -/
theorem find_control_case_ws_insensitive_witness :
    normalize "  aC-1 " = normalize "AC-1" ∧
    find_control sample_env "NIST 800-53" "  aC-1 " = some sample_ac1 :=
  ⟨by decide,
   find_control_case_ws_insensitive sample_env "NIST 800-53" "  aC-1 " "AC-1"
     sample_ac1 (by decide) (by decide)⟩

/-- Claim C7: an unknown framework or an unmatched control id makes
`control_lookup` return the not-found value (name `none`, empty lists) —
a value, never an exception (the embedding is total by construction). -/
theorem control_lookup_not_found (env : String → FrameworkData)
    (framework control_id : String)
    (h : framework_file framework = none ∨
         find_control env framework control_id = none) :
    control_lookup env framework control_id =
      ⟨framework, control_id, none, [], []⟩ := by
  have hn : find_control env framework control_id = none := by
    rcases h with h | h
    · unfold find_control
      rw [h]
    · exact h
  unfold control_lookup
  rw [hn]

/-- Witness for C7: both an unknown framework and an unmatched id yield the
not-found value. -/
theorem control_lookup_not_found_witness :
    control_lookup sample_env "Nonexistent Framework" "AC-1" =
      ⟨"Nonexistent Framework", "AC-1", none, [], []⟩ ∧
    control_lookup sample_env "NIST 800-53" "ZZ-99" =
      ⟨"NIST 800-53", "ZZ-99", none, [], []⟩ :=
  ⟨control_lookup_not_found sample_env "Nonexistent Framework" "AC-1"
     (Or.inl (by decide)),
   control_lookup_not_found sample_env "NIST 800-53" "ZZ-99"
     (Or.inr (by decide))⟩

/-- Claim C10: an unresolvable control makes `gap_analyzer` report through
the same `heuristic_gaps` list as genuine gaps: empty requirements and the
single sentinel string, not a distinct not-found shape. -/
theorem gap_analyzer_not_found_shape (env : String → FrameworkData)
    (framework control_id implementation_description : String)
    (h : find_control env framework control_id = none) :
    gap_analyzer env framework control_id implementation_description =
      ⟨control_id, [], implementation_description,
       ["Control not found in data set."]⟩ := by
  unfold gap_analyzer
  rw [h]

/-- Witness for C10 at a concrete unmatched id. -/
theorem gap_analyzer_not_found_shape_witness :
    gap_analyzer sample_env "NIST 800-53" "ZZ-99" "we log everything" =
      ⟨"ZZ-99", [], "we log everything",
       ["Control not found in data set."]⟩ :=
  gap_analyzer_not_found_shape sample_env "NIST 800-53" "ZZ-99"
    "we log everything" (by decide)

/-- Counterexample to C8: two `finding_generator` invocations with identical
caller inputs differ when the ambient random draw differs (the code reads
`random.randint(100, 999)` into `finding_id`), so the operation is not a
function of its inputs alone. -/
theorem finding_generator_random_counterexample :
    finding_generator "Missing audit logging" "moderate" 0 100 ≠
      finding_generator "Missing audit logging" "moderate" 0 101 := by
  decide

/-- Claim C8 as amended: gap detection, level gating, risk classification
and baseline selection are pure functions of their inputs (definitional in
this embedding), and `finding_generator` is deterministic given the clock
and random draw, the random draw affecting nothing but `finding_id`. -/
theorem finding_generator_rand_only_affects_id (gap_summary risk : String)
    (now r1 r2 : Nat) :
    (finding_generator gap_summary risk now r1).poam_entry =
        (finding_generator gap_summary risk now r2).poam_entry ∧
    (finding_generator gap_summary risk now r1).remediation_steps =
        (finding_generator gap_summary risk now r2).remediation_steps ∧
    (finding_generator gap_summary risk now r1).poam_required =
        (finding_generator gap_summary risk now r2).poam_required :=
  ⟨rfl, rfl, rfl⟩

/-- Counterexample to C5: at risk level low the code schedules completion
365 days out but places the midpoint milestone 182 days out
(`365 // 2`), which is not exactly half the offset: doubling the
midpoint's distance from the detection date does not give the completion
offset. -/
theorem finding_generator_low_midpoint_counterexample :
    ¬ (2 * (((finding_generator "gap summary" "low" 0 500).poam_entry.milestones.headD
            ⟨"", 0⟩).due_date -
          (finding_generator "gap summary" "low" 0 500).poam_entry.original_detection_date) =
        (finding_generator "gap summary" "low" 0 500).poam_entry.scheduled_completion_date -
          (finding_generator "gap summary" "low" 0 500).poam_entry.original_detection_date) := by
  decide

/-- Claim C5 as amended: completion is 30/90/180/365 days after detection
for critical/high/moderate/low, and the first (midpoint) milestone is at
the floor of half that offset — exactly half for the three even offsets,
182 of 365 for low. -/
theorem finding_generator_offsets (gap_summary : String) (now rand : Nat) :
    ((finding_generator gap_summary "critical" now rand).poam_entry.scheduled_completion_date = now + 30 ∧
     (finding_generator gap_summary "critical" now rand).poam_entry.original_detection_date = now ∧
     (finding_generator gap_summary "critical" now rand).poam_entry.milestones.map
        (fun m => m.due_date) = [now + 15, now + 30]) ∧
    ((finding_generator gap_summary "high" now rand).poam_entry.scheduled_completion_date = now + 90 ∧
     (finding_generator gap_summary "high" now rand).poam_entry.original_detection_date = now ∧
     (finding_generator gap_summary "high" now rand).poam_entry.milestones.map
        (fun m => m.due_date) = [now + 45, now + 90]) ∧
    ((finding_generator gap_summary "moderate" now rand).poam_entry.scheduled_completion_date = now + 180 ∧
     (finding_generator gap_summary "moderate" now rand).poam_entry.original_detection_date = now ∧
     (finding_generator gap_summary "moderate" now rand).poam_entry.milestones.map
        (fun m => m.due_date) = [now + 90, now + 180]) ∧
    ((finding_generator gap_summary "low" now rand).poam_entry.scheduled_completion_date = now + 365 ∧
     (finding_generator gap_summary "low" now rand).poam_entry.original_detection_date = now ∧
     (finding_generator gap_summary "low" now rand).poam_entry.milestones.map
        (fun m => m.due_date) = [now + 182, now + 365]) :=
  ⟨⟨rfl, rfl, rfl⟩, ⟨rfl, rfl, rfl⟩, ⟨rfl, rfl, rfl⟩, ⟨rfl, rfl, rfl⟩⟩

/-- Counterexample to C9: the loader has no cache — a second lookup of the
same framework file performs a second underlying load (the read count
after two sequential loads is 2, not 1 as caching would give). -/
theorem load_framework_data_no_cache_counterexample :
    ((load_framework_data (fun _ => ⟨[], [], [], []⟩) "cmmc-2.0-practices.json" >>=
        fun _ =>
          load_framework_data (fun _ => ⟨[], [], [], []⟩)
            "cmmc-2.0-practices.json").run 0).2 = 2 ∧ (2 : Nat) ≠ 1 :=
  ⟨rfl, by decide⟩

/-- Claim C9 as amended: framework-definition documents are re-read on
every lookup — `k` sequential calls to `load_framework_data` for the same
file perform exactly `k` underlying loads; no per-process cache or
single-flight memoization exists. -/
theorem repeat_loads_count (env : String → FrameworkData) (file_name : String)
    (k n : Nat) :
    ((repeat_loads env file_name k).run n).2 = n + k := by
  induction k generalizing n with
  | zero => rfl
  | succ k ih =>
    show ((repeat_loads env file_name k).run (n + 1)).2 = n + (k + 1)
    rw [ih]
    omega

/-- Projection of `baseline_selector`'s overall field: the high-water mark
computation does not depend on the other arguments. -/
theorem baseline_overall_eq (c i a : String) (dts : List String) (m : String)
    (regs : List String) :
    (baseline_selector ⟨c, i, a, dts, m, regs⟩).fips_199_categorization.overall =
      rank_to_level (max (max (impact_rank c) (impact_rank i)) (impact_rank a)) :=
  rfl

/-- Claim C4: for every choice of confidentiality, integrity and
availability among low/moderate/high (27 combinations), the reported
overall categorization is the maximum of the three inputs under the
ordering low < moderate < high. -/
theorem baseline_selector_high_water_mark (c i a : String) (dts : List String)
    (m : String) (regs : List String)
    (hc : c ∈ (["low", "moderate", "high"] : List String))
    (hi : i ∈ (["low", "moderate", "high"] : List String))
    (ha : a ∈ (["low", "moderate", "high"] : List String)) :
    spec_rank ((baseline_selector ⟨c, i, a, dts, m, regs⟩).fips_199_categorization.overall) =
      max (spec_rank c) (max (spec_rank i) (spec_rank a)) ∧
    (baseline_selector ⟨c, i, a, dts, m, regs⟩).fips_199_categorization.overall ∈
      [c, i, a] := by
  fin_cases hc <;> fin_cases hi <;> fin_cases ha <;> rw [baseline_overall_eq] <;>
    exact ⟨by decide, by decide⟩

/-- Witness for C4 at one concrete combination. -/
theorem baseline_selector_high_water_mark_witness :
    spec_rank ((baseline_selector ⟨"low", "moderate", "high", [], "", []⟩).fips_199_categorization.overall) =
      max (spec_rank "low") (max (spec_rank "moderate") (spec_rank "high")) ∧
    (baseline_selector ⟨"low", "moderate", "high", [], "", []⟩).fips_199_categorization.overall ∈
      ["low", "moderate", "high"] :=
  baseline_selector_high_water_mark "low" "moderate" "high" [] "" []
    (by decide) (by decide) (by decide)

-- ---------------------------------------------------------------------------
-- CMMC monotonicity (claim C3)
-- ---------------------------------------------------------------------------

theorem length_filter_le_of_imp {α : Type} (p q : α → Bool) (l : List α)
    (h : ∀ x, p x = true → q x = true) :
    (l.filter p).length ≤ (l.filter q).length := by
  induction l with
  | nil => simp
  | cons a t ih =>
    cases hp : p a with
    | true =>
      have hq := h a hp
      simp only [List.filter_cons, hp, hq, if_true, List.length_cons]
      exact Nat.add_le_add_right ih 1
    | false =>
      cases hq : q a with
      | true =>
        simp only [List.filter_cons, hp, hq, if_true, if_false,
          List.length_cons]
        exact Nat.le_succ_of_le ih
      | false =>
        simp only [List.filter_cons, hp, hq, if_false]
        exact ih

theorem str_mem_append_left (x : String) (l l2 : List String)
    (h : str_mem x l = true) : str_mem x (l ++ l2) = true := by
  simp only [str_mem, List.any_append, Bool.or_eq_true]
  exact Or.inl h

theorem implemented_set_append (impls : List Implementation)
    (item : Implementation) :
    implemented_set (impls ++ [item]) =
      implemented_set impls ++ implemented_set [item] := by
  simp [implemented_set]

theorem implemented_subset (impls : List Implementation) (item : Implementation)
    (x : String) (h : str_mem x (implemented_set impls) = true) :
    str_mem x (implemented_set (impls ++ [item])) = true := by
  rw [implemented_set_append]
  exact str_mem_append_left x _ _ h

theorem missing_anti (l : CmmcLevel) (S S' : List String)
    (hsub : ∀ x, str_mem x S = true → str_mem x S' = true) :
    (missing_practices l S').length ≤ (missing_practices l S).length := by
  unfold missing_practices
  apply length_filter_le_of_imp
  intro p hp
  cases hS : str_mem (normalize p.id) S with
  | false => simp
  | true =>
    have := hsub _ hS
    rw [this] at hp
    simp at hp

theorem isEmpty_of_length_le {α : Type} (l l2 : List α)
    (hle : l.length ≤ l2.length) (h : l2.isEmpty = true) :
    l.isEmpty = true := by
  cases l2 with
  | cons a t => simp at h
  | nil =>
    cases l with
    | nil => rfl
    | cons a t => simp at hle

theorem achieved_count_mono (S S' : List String)
    (hsub : ∀ x, str_mem x S = true → str_mem x S' = true) :
    ∀ levels, achieved_count S levels ≤ achieved_count S' levels := by
  intro levels
  induction levels with
  | nil => simp [achieved_count]
  | cons l ls ih =>
    cases hp : (missing_practices l S).isEmpty with
    | true =>
      have hp' : (missing_practices l S').isEmpty = true :=
        isEmpty_of_length_le _ _ (missing_anti l S S' hsub) hp
      simp only [achieved_count, hp, hp', if_true]
      omega
    | false =>
      simp [achieved_count, hp]

theorem gaps_at_le_of_prefix_eq (S S' : List String)
    (hsub : ∀ x, str_mem x S = true → str_mem x S' = true) :
    ∀ levels, achieved_count S' levels = achieved_count S levels →
      gaps_at S' levels ≤ gaps_at S levels := by
  intro levels
  induction levels with
  | nil => intro _; simp [gaps_at]
  | cons l ls ih =>
    intro heq
    cases hp : (missing_practices l S).isEmpty with
    | true =>
      have hp' : (missing_practices l S').isEmpty = true :=
        isEmpty_of_length_le _ _ (missing_anti l S S' hsub) hp
      simp only [achieved_count, hp, hp', if_true] at heq
      simp only [gaps_at, hp, hp', if_true]
      exact ih (by omega)
    | false =>
      cases hp' : (missing_practices l S').isEmpty with
      | true =>
        have h1 : achieved_count S' (l :: ls) = achieved_count S' ls + 1 := by
          simp [achieved_count, hp']
        have h2 : achieved_count S (l :: ls) = 0 := by
          simp [achieved_count, hp]
        rw [h1, h2] at heq
        omega
      | false =>
        simp only [gaps_at, hp, hp', if_false]
        exact missing_anti l S S' hsub

theorem cmmc_go_fst (impl : List String) :
    ∀ levels ach, (cmmc_go impl levels ach).1 =
      level_name ach levels (achieved_count impl levels) := by
  intro levels
  induction levels with
  | nil => intro ach; rfl
  | cons l ls ih =>
    intro ach
    cases hp : (missing_practices l impl).isEmpty with
    | true =>
      simp only [cmmc_go, achieved_count, hp, if_true, level_name]
      exact ih l.level
    | false =>
      simp [cmmc_go, achieved_count, hp, level_name]

theorem cmmc_go_snd (impl : List String) :
    ∀ levels ach, (cmmc_go impl levels ach).2 = gaps_at impl levels := by
  intro levels
  induction levels with
  | nil => intro ach; rfl
  | cons l ls ih =>
    intro ach
    cases hp : (missing_practices l impl).isEmpty with
    | true => simp only [cmmc_go, gaps_at, hp, if_true]; exact ih l.level
    | false => simp [cmmc_go, gaps_at, hp]

/-- Claim C3: `cmmc_level_checker` is monotonic — appending an
implementation never shrinks the achieved prefix of the declared level
order (the reported level name is exactly the name of that prefix's last
level, `"None"` for an empty prefix), and whenever the walk still halts at
the same level, the reported missing-practice count does not increase. -/
theorem cmmc_level_checker_monotonic (env : String → FrameworkData)
    (impls : List Implementation) (item : Implementation) :
    achieved_count (implemented_set impls)
        (env "cmmc-2.0-practices.json").levels ≤
      achieved_count (implemented_set (impls ++ [item]))
        (env "cmmc-2.0-practices.json").levels ∧
    (cmmc_level_checker env impls).level =
      level_name "None" (env "cmmc-2.0-practices.json").levels
        (achieved_count (implemented_set impls)
          (env "cmmc-2.0-practices.json").levels) ∧
    (cmmc_level_checker env (impls ++ [item])).level =
      level_name "None" (env "cmmc-2.0-practices.json").levels
        (achieved_count (implemented_set (impls ++ [item]))
          (env "cmmc-2.0-practices.json").levels) ∧
    (achieved_count (implemented_set (impls ++ [item]))
          (env "cmmc-2.0-practices.json").levels =
        achieved_count (implemented_set impls)
          (env "cmmc-2.0-practices.json").levels →
      (cmmc_level_checker env (impls ++ [item])).gaps_to_next_level ≤
        (cmmc_level_checker env impls).gaps_to_next_level) := by
  have hsub : ∀ x, str_mem x (implemented_set impls) = true →
      str_mem x (implemented_set (impls ++ [item])) = true :=
    implemented_subset impls item
  refine ⟨achieved_count_mono _ _ hsub _, ?_, ?_, ?_⟩
  · show (cmmc_go (implemented_set impls)
        (env "cmmc-2.0-practices.json").levels "None").1 = _
    exact cmmc_go_fst _ _ _
  · show (cmmc_go (implemented_set (impls ++ [item]))
        (env "cmmc-2.0-practices.json").levels "None").1 = _
    exact cmmc_go_fst _ _ _
  · intro heq
    have h2 := gaps_at_le_of_prefix_eq _ _ hsub
      (env "cmmc-2.0-practices.json").levels heq
    show (cmmc_go (implemented_set (impls ++ [item]))
        (env "cmmc-2.0-practices.json").levels "None").2 ≤
      (cmmc_go (implemented_set impls)
        (env "cmmc-2.0-practices.json").levels "None").2
    rw [cmmc_go_snd, cmmc_go_snd]
    exact h2

/-- Witness for C3 at concrete CMMC data: Level 1 of the fixture has one
missing practice before and after adding a Level 2 practice, so the
achieved prefix is unchanged and the gap count does not increase. -/
theorem cmmc_level_checker_monotonic_witness :
    achieved_count (implemented_set wit_impls)
        (wit_env "cmmc-2.0-practices.json").levels ≤
      achieved_count (implemented_set (wit_impls ++ [wit_item]))
        (wit_env "cmmc-2.0-practices.json").levels ∧
    (cmmc_level_checker wit_env (wit_impls ++ [wit_item])).gaps_to_next_level ≤
      (cmmc_level_checker wit_env wit_impls).gaps_to_next_level :=
  ⟨(cmmc_level_checker_monotonic wit_env wit_impls wit_item).1,
   (cmmc_level_checker_monotonic wit_env wit_impls wit_item).2.2.2 (by decide)⟩

-- ---------------------------------------------------------------------------
-- Substring characterization (claim C6)
-- ---------------------------------------------------------------------------

theorem isPrefixList_iff (n : List Char) :
    ∀ h, isPrefixList n h = true ↔ ∃ t, h = n ++ t := by
  induction n with
  | nil =>
    intro h
    constructor
    · intro _
      exact ⟨h, rfl⟩
    · intro _
      rfl
  | cons a ns ih =>
    intro h
    cases h with
    | nil =>
      simp [isPrefixList]
    | cons b hs =>
      constructor
      · intro hp
        simp only [isPrefixList, Bool.and_eq_true, beq_iff_eq] at hp
        obtain ⟨hab, hrest⟩ := hp
        obtain ⟨t, ht⟩ := (ih hs).1 hrest
        subst hab
        exact ⟨t, by rw [ht]; rfl⟩
      · rintro ⟨t, ht⟩
        simp only [List.cons_append] at ht
        injection ht with h1 h2
        simp only [isPrefixList, Bool.and_eq_true, beq_iff_eq]
        exact ⟨h1.symm, (ih hs).2 ⟨t, h2⟩⟩

theorem has_substr_iff (needle : List Char) :
    ∀ hay, has_substr hay needle = true ↔ ∃ p q, hay = p ++ needle ++ q := by
  intro hay
  induction hay with
  | nil =>
    cases needle with
    | nil =>
      simp [has_substr]
    | cons c n =>
      simp [has_substr]
  | cons c t ih =>
    simp only [has_substr, Bool.or_eq_true]
    constructor
    · rintro (hp | hs)
      · obtain ⟨tl, htl⟩ := (isPrefixList_iff needle (c :: t)).1 hp
        exact ⟨[], tl, by simp [htl]⟩
      · obtain ⟨p, q, hpq⟩ := ih.1 hs
        exact ⟨c :: p, q, by simp [hpq]⟩
    · rintro ⟨p, q, hpq⟩
      cases p with
      | nil =>
        left
        apply (isPrefixList_iff needle (c :: t)).2
        exact ⟨q, by simpa using hpq⟩
      | cons x p2 =>
        right
        apply ih.2
        simp only [List.cons_append] at hpq
        injection hpq with h1 h2
        exact ⟨p2, q, h2⟩

theorem str_has_iff (hay needle : String) :
    str_has hay needle = true ↔ ∃ p q, hay.data = p ++ needle.data ++ q := by
  unfold str_has
  exact has_substr_iff needle.data hay.data

/-- Claim C6: for a resolvable control, `gap_analyzer` returns exactly the
requirement strings whose normalized form does not occur contiguously
inside the normalized implementation text — as the order-preserving filter
of the requirement list, with membership characterized by the absence of a
substring decomposition. -/
theorem gap_analyzer_substring_characterization (env : String → FrameworkData)
    (framework control_id implementation_description : String) (ctrl : Control)
    (h : find_control env framework control_id = some ctrl) :
    (gap_analyzer env framework control_id implementation_description).requirements =
      ctrl.requirements ∧
    (gap_analyzer env framework control_id implementation_description).heuristic_gaps =
      ctrl.requirements.filter (fun req =>
        !(str_has (normalize implementation_description) (normalize req))) ∧
    ∀ req,
      req ∈ (gap_analyzer env framework control_id implementation_description).heuristic_gaps ↔
        req ∈ ctrl.requirements ∧
        ¬ ∃ p q, (normalize implementation_description).data =
            p ++ (normalize req).data ++ q := by
  have hg : (gap_analyzer env framework control_id implementation_description).heuristic_gaps =
      ctrl.requirements.filter (fun req =>
        !(str_has (normalize implementation_description) (normalize req))) := by
    unfold gap_analyzer
    rw [h]
  refine ⟨by unfold gap_analyzer; rw [h], hg, ?_⟩
  intro req
  rw [hg, List.mem_filter]
  constructor
  · rintro ⟨hmem, hb⟩
    refine ⟨hmem, ?_⟩
    intro hex
    rw [(str_has_iff (normalize implementation_description) (normalize req)).2 hex] at hb
    simp at hb
  · rintro ⟨hmem, hnex⟩
    refine ⟨hmem, ?_⟩
    cases hsh : str_has (normalize implementation_description) (normalize req) with
    | false => rfl
    | true => exact absurd ((str_has_iff _ _).1 hsh) hnex

/-- Witness for C6: the spec's own example — requirements least privilege
and audit logging against the text we enforce least privilege. -/
theorem gap_analyzer_substring_characterization_witness :
    (gap_analyzer sample_env "NIST 800-53" "AC-1" "we enforce least privilege").heuristic_gaps =
      ["audit logging"] := by
  have h := gap_analyzer_substring_characterization sample_env "NIST 800-53"
    "AC-1" "we enforce least privilege" sample_ac1 (by decide)
  rw [h.2.1]
  decide

-- ---------------------------------------------------------------------------
-- Document extractor pairing (claim C2)
-- ---------------------------------------------------------------------------

theorem extract_controls_skip_all :
    ∀ ts, (∀ u ∈ ts, parse_cis_table u = none) → extract_controls ts = [] := by
  intro ts
  induction ts with
  | nil => intro _; rfl
  | cons t rest ih =>
    intro h
    have ht : parse_cis_table t = none := h t (by simp)
    cases rest with
    | nil => simp [extract_controls, ht]
    | cons next r2 =>
      have hstep : extract_controls (t :: next :: r2) =
          extract_controls (next :: r2) := by
        simp [extract_controls, ht]
      rw [hstep]
      exact ih (fun u hu => h u (by simp [hu]))

/-- Counterexample to C2: a statement-pattern table immediately following a
summary table is consumed even when its header names a different control —
here the AC-3 statement table is folded into the AC-2 record's
parts/raw_narrative. -/
theorem extract_controls_cross_control_counterexample :
    extract_controls
        [["AC-2 Control Summary Information"],
         ["AC-3 What is the solution and how is it implemented?",
          "Part a: Account management."]] =
      [⟨"ac-2", "", "", "", [], [('a', "Account management.")],
        "Part a: Account management."⟩] ∧
    statement_header "AC-3 What is the solution and how is it implemented?" =
      some "AC-3" ∧
    normalize "AC-3" ≠ normalize "AC-2" :=
  ⟨rfl, rfl, by decide⟩

/-- Claim C2 as amended: a statement-pattern table is consumed exactly when
it is the table immediately following a matched summary table — with no
requirement that it name the same control; tables matching no summary
header (statement tables out of pairing position included) are skipped and
contribute nothing. -/
theorem extract_controls_pairing (ts : List (List String))
    (hall : ∀ u ∈ ts, parse_cis_table u = none)
    (t next : List String) (rest : List (List String)) (cis : CisInfo)
    (hcis : parse_cis_table t = some cis) :
    extract_controls ts = [] ∧
    (is_statement_table next = true →
      extract_controls (t :: next :: rest) =
        mk_record cis (parse_statement_table next).1
            (parse_statement_table next).2 :: extract_controls rest) ∧
    (is_statement_table next = false →
      extract_controls (t :: next :: rest) =
        mk_record cis [] "" :: extract_controls (next :: rest)) := by
  refine ⟨extract_controls_skip_all ts hall, ?_, ?_⟩
  · intro hs
    simp [extract_controls, hcis, hs]
  · intro hs
    simp [extract_controls, hcis, hs]

/-- Witness for C2's amended statement: a lone statement table yields no
records, and a summary table followed by its statement table consumes it. -/
theorem extract_controls_pairing_witness :
    extract_controls [["AC-9 What is the solution and how is it implemented?"]] = [] ∧
    extract_controls
        [["AC-2 Control Summary Information"],
         ["AC-2 What is the solution and how is it implemented?",
          "Part a: Account management."]] =
      mk_record ⟨"ac-2", "", "", "", []⟩
          (parse_statement_table
            ["AC-2 What is the solution and how is it implemented?",
             "Part a: Account management."]).1
          (parse_statement_table
            ["AC-2 What is the solution and how is it implemented?",
             "Part a: Account management."]).2 :: extract_controls [] := by
  have h := extract_controls_pairing
    [["AC-9 What is the solution and how is it implemented?"]] (by decide)
    ["AC-2 Control Summary Information"]
    ["AC-2 What is the solution and how is it implemented?",
     "Part a: Account management."]
    [] ⟨"ac-2", "", "", "", []⟩ (by decide)
  exact ⟨h.1, h.2.1 (by decide)⟩

end GrcAgent
